import Mathlib

/-!
Verification development for the chat-widget core of `src/app/protected/page.tsx`
(session identity, message persistence, reply formatting, conversation control)
and for the access-gated page in the same file.

The embedding mirrors the TypeScript source at the level of the JavaScript
runtime values it manipulates:

* `Json` models the values produced by `JSON.parse` and consumed by
  `JSON.stringify` (the external JSON builtins).  Numeric payloads are
  restricted to integers; no claim depends on numeric content.
* `StorageVal` models one string stored in `localStorage`: a parseable string
  is represented by the JSON value it parses to (`json j`), an unparseable
  string is kept verbatim (`raw s`).  `JSON.stringify` always produces a
  parseable string whose parse is the original value, so stringify is
  modelled by the `json` constructor and `JSON.parse` by `parseStorage`.
* `RElem` models the two shapes of React fragment that `formatResponse`
  returns: a fragment whose only child is a string, or a fragment whose
  children are a list of `<p className="mb-2 last:mb-0">` elements.
* The JavaScript string operations used by the source (`split`, `trim`,
  `endsWith`, `length`) are defined here character by character (`jsSplit`,
  `jsTrim`, `jsEndsWith`, `jsLength`), by structural recursion so that every
  theorem can be checked by evaluation.  Strings are ASCII in every claim
  input, so code units, code points and the ASCII whitespace classes agree.
-/

/-- The ASCII whitespace characters recognised by JavaScript's `trim`. -/
def isJsSpace (c : Char) : Bool :=
  c == ' ' || c == '\t' || c == '\n' || c == '\r' || c == '\x0b' || c == '\x0c'

/-- Character-level core of `jsTrim`: drop leading and trailing whitespace. -/
def trimChars (s : List Char) : List Char :=
  ((s.dropWhile isJsSpace).reverse.dropWhile isJsSpace).reverse

/-- Models JavaScript `s.trim()`. -/
def jsTrim (s : String) : String :=
  String.mk (trimChars s.data)

/-- Models JavaScript `s.endsWith(suffix)`. -/
def jsEndsWith (s suffix : String) : Bool :=
  suffix.data.isSuffixOf s.data

/-- Models JavaScript `s.length` (code-unit count; the inputs are ASCII). -/
def jsLength (s : String) : Nat :=
  s.data.length

/-- Fuel-driven core of `jsSplit`: scan left to right, emitting a chunk at
each non-overlapping occurrence of the separator.  The fuel (initially the
string length) only ever bounds the recursion; each step consumes at least
one character, so it never runs out. -/
def splitCharsFuel (sep : List Char) : Nat → List Char → List Char → List (List Char)
  | _, [], acc => [acc.reverse]
  | 0, s, acc => [acc.reverse ++ s]
  | fuel + 1, c :: rest, acc =>
    if sep.isPrefixOf (c :: rest) then
      acc.reverse :: splitCharsFuel sep fuel ((c :: rest).drop sep.length) []
    else
      splitCharsFuel sep fuel rest (c :: acc)

/-- Models JavaScript `s.split(sep)` for a non-empty separator string. -/
def jsSplit (s sep : String) : List String :=
  (splitCharsFuel sep.data s.data.length s.data []).map (fun cs => String.mk cs)

example : jsSplit "a. b. " ". " = ["a", "b", ""] := by decide

example : jsSplit "" "\n" = [""] := by decide

example : jsSplit "a\nb" "\n" = ["a", "b"] := by decide

example : jsTrim " abc.\t" = "abc." := by decide

example : jsEndsWith "abc." "." = true ∧ jsEndsWith "abc.\t" "." = false := by decide

/-- A JavaScript value as producible by `JSON.parse`. -/
inductive Json where
  | null
  | bool (b : Bool)
  | num (n : Int)
  | str (s : String)
  | arr (elems : List Json)
  | obj (fields : List (String × Json))

/-- One string-valued `localStorage` cell: the parse of a well-formed payload,
or the verbatim text of a payload that is not valid JSON. -/
inductive StorageVal where
  | json (j : Json)
  | raw (s : String)

/-- Models `JSON.parse` on a stored string: a well-formed payload yields its
value, an unparseable payload throws a `SyntaxError`. -/
def parseStorage : StorageVal → Except Unit Json
  | .json j => .ok j
  | .raw _ => .error ()

/-- Models the JavaScript truthiness test `if (storedMessages)` on a stored
string: only the empty string is falsy. -/
def storageFalsy : StorageVal → Bool
  | .raw s => s == ""
  | .json _ => false

/-- Whether a JSON value is a string (`typeof v === 'string'` for parsed values). -/
def Json.isString : Json → Bool
  | .str _ => true
  | _ => false

/-- Models JavaScript property access `j[k]` on a parsed JSON value: reading a
property of `null` throws a `TypeError`; objects yield the field or
`undefined` (`none`); every other value yields `undefined`. -/
def jsGetField : Json → String → Except Unit (Option Json)
  | .null, _ => .error ()
  | .obj fields, k => .ok (fields.lookup k)
  | _, _ => .ok none

/-- Models JavaScript property access `v.k` on a possibly-`undefined` value
(`none` is `undefined`, whose property access throws a `TypeError`). -/
def jsMember : Option Json → String → Except Unit (Option Json)
  | none, _ => .error ()
  | some j, k => jsGetField j k

/-- Models JavaScript truthiness of a possibly-`undefined` parsed value, as
tested by `response.data.output || 'AI response received'`. -/
def jsFalsy : Option Json → Bool
  | none => true
  | some .null => true
  | some (.bool false) => true
  | some (.num 0) => true
  | some (.str "") => true
  | _ => false

mutual

/-- Models the JavaScript `String(v)` coercion on a parsed JSON value:
`Array.prototype.toString` joins the elements' coercions with commas (with
`null` rendered empty inside an array) and plain objects render as
`"[object Object]"`. -/
def jsToString : Json → String
  | .null => "null"
  | .bool b => if b then "true" else "false"
  | .num n => toString n
  | .str s => s
  | .obj _ => "[object Object]"
  | .arr xs => String.intercalate "," (jsArrStrings xs)

/-- The element coercions `Array.prototype.toString` joins: a `null` element
renders empty, every other element by `String(v)`. -/
def jsArrStrings : List Json → List String
  | [] => []
  | .null :: rest => "" :: jsArrStrings rest
  | j :: rest => jsToString j :: jsArrStrings rest

end

/-- The display content `formatResponse` builds: a React fragment whose single
child is a string, or a fragment whose children are `<p>` paragraph elements,
one block per list entry. -/
inductive RElem where
  | text (s : String)
  | paras (blocks : List String)
deriving DecidableEq

/-- The list of display blocks of a formatted fragment. -/
def blocksOf : RElem → List String
  | .text s => [s]
  | .paras blocks => blocks

/-- Models `const safeText = typeof text === 'string' ? text : String(text ?? '')`
where the argument is a parsed JSON value or `undefined` (`none`). -/
def safeTextOf : Option Json → String
  | some (.str s) => s
  | none => ""
  | some .null => ""
  | some j => jsToString j

/-- One fragment of the sentence split, exactly as the source maps it:
`s.trim() + (s.endsWith('.') ? '' : '.')`.  Note that the period test is on
the untrimmed fragment. -/
def codeFragment (s : String) : String :=
  jsTrim s ++ (if jsEndsWith s "." then "" else ".")

/-- Embeds `formatResponse` from `src/app/protected/page.tsx`: split on
newlines and return one block per non-blank line when there are at least two;
otherwise split the original text on `". "`, and return the mapped fragments
when there are at least two of them or the text exceeds 100 characters;
otherwise return the text untouched as a single string child. -/
def formatResponse (text : Option Json) : RElem :=
  let safeText := safeTextOf text
  let lines := (jsSplit safeText "\n").filter (fun line => jsTrim line != "")
  if lines.length > 1 then
    .paras lines
  else
    let sentences := (jsSplit safeText ". ").map codeFragment
    if sentences.length > 1 ∨ jsLength safeText > 100 then
      .paras sentences
    else
      .text safeText

example : formatResponse (some (.str "line one\nline two")) = .paras ["line one", "line two"] := by
  decide

example : formatResponse (some (.str "")) = .text "" := by
  decide

example : formatResponse (some (.str "First sentence. Second sentence.")) =
    .paras ["First sentence.", "Second sentence."] := by
  decide

example : formatResponse (some (.str "Hi there.")) = .text "Hi there." := by
  decide

example : formatResponse (some (.str "Hi there. abc.\t")) = .paras ["Hi there.", "abc.."] := by
  decide

example : jsToString (.arr [.obj [("type", .str "p")]]) = "[object Object]" := by
  decide

/-- The runtime content of a `Message`: a raw JavaScript value (`none` is
`undefined`; a plain string is `raw (some (.str s))`), or a React fragment
built by `formatResponse`. -/
inductive MessageContent where
  | raw (v : Option Json)
  | elem (e : RElem)

/-- One turn of the conversation as held in the widget's React state.  The
source declares `role` as `'user' | 'ai'` and `content` as
`string | JSX.Element`, but values parsed from storage are never validated,
so at runtime the role is an arbitrary parsed value (`none` is `undefined`)
and the content is either a raw parsed value or a formatted fragment. -/
structure Message where
  role : Option Json
  content : MessageContent

/-- The user `Message` literal `{ role: 'user', content: input }`. -/
def userMsg (s : String) : Message :=
  ⟨some (.str "user"), .raw (some (.str s))⟩

/-- The assistant `Message` literal `{ role: 'ai', content: formattedContent }`. -/
def aiMsg (e : RElem) : Message :=
  ⟨some (.str "ai"), .elem e⟩

/-- Models `map` with a throwing callback: the first exception aborts the
whole traversal, as a thrown `TypeError` aborts `Array.prototype.map`. -/
def throwMap (f : α → Except Unit β) : List α → Except Unit (List β)
  | [] => .ok []
  | a :: as =>
    match f a with
    | .error e => .error e
    | .ok b =>
      match throwMap f as with
      | .error e => .error e
      | .ok bs => .ok (b :: bs)

/-- The comparison `msg.role === 'ai'` on a runtime role value. -/
def isAiRole : Option Json → Bool
  | some (.str s) => s == "ai"
  | _ => false

/-- Models calling `Array.prototype.map` on an arbitrary parsed value: any
non-array (including a string, a number, `null` or an object) has no `map`
method, so the call throws a `TypeError`. -/
def asArray : Json → Except Unit (List Json)
  | .arr xs => .ok xs
  | _ => .error ()

/-- The load-side per-element mapping from the mount effect:
`(msg) => ({ role: msg.role, content: msg.role === 'ai' ? formatResponse(msg.content) : msg.content })`.
Property access throws on a `null` element. -/
def loadMessage (j : Json) : Except Unit Message :=
  match jsGetField j "role" with
  | .error e => .error e
  | .ok roleV =>
    match jsGetField j "content" with
    | .error e => .error e
    | .ok contentV =>
      if isAiRole roleV then .ok ⟨roleV, .elem (formatResponse contentV)⟩
      else .ok ⟨roleV, .raw contentV⟩

/-- Embeds the load performed by the mount effect on the value stored under
the `chatMessages` key: no stored value (or the empty string, which the
truthiness guard treats the same) leaves the history empty; otherwise the
payload is parsed by `JSON.parse` — with no surrounding `try`/`catch`, so a
parse failure propagates — and mapped element-wise to `Message`s. -/
def load : Option StorageVal → Except Unit (List Message)
  | none => .ok []
  | some v =>
    if storageFalsy v then .ok []
    else
      match parseStorage v with
      | .error e => .error e
      | .ok j =>
        match asArray j with
        | .error e => .error e
        | .ok elems => throwMap loadMessage elems

/-- The serialized form of one `<p key={index} className="mb-2 last:mb-0">`
React element, as `JSON.stringify` renders it inside the stored array (the
symbol-keyed element tag is dropped by `JSON.stringify`). -/
def paraJson (index : Nat) (s : String) : Json :=
  .obj [("type", .str "p"), ("key", .str (toString index)), ("ref", .null),
        ("props", .obj [("className", .str "mb-2 last:mb-0"), ("children", .str s)])]

/-- The save-side content projection
`typeof msg.content === 'string' ? msg.content : msg.content.props.children`:
a string content is kept; otherwise `props.children` is read off the value —
for a formatted fragment that is the string child or the array of `<p>`
elements, and for any other non-string value the chained property access can
throw a `TypeError`. -/
def storableContent : MessageContent → Except Unit (Option Json)
  | .raw (some (.str s)) => .ok (some (.str s))
  | .raw v =>
    match jsMember v "props" with
    | .error e => .error e
    | .ok props => jsMember props "children"
  | .elem (.text s) => .ok (some (.str s))
  | .elem (.paras blocks) => .ok (some (.arr (blocks.enum.map (fun p => paraJson p.1 p.2))))

/-- The field list `{ role: msg.role, content: c }` builds, with
`undefined`-valued properties dropped as `JSON.stringify` drops them. -/
def roleFields : Option Json → List (String × Json)
  | none => []
  | some r => [("role", r)]

/-- The optional `content` field of a storable record (`undefined` dropped). -/
def contentFields : Option Json → List (String × Json)
  | none => []
  | some c => [("content", c)]

/-- One element of `storableMessages`. -/
def storableMessage (m : Message) : Except Unit Json :=
  match storableContent m.content with
  | .error e => .error e
  | .ok c => .ok (.obj (roleFields m.role ++ contentFields c))

/-- Embeds the save performed by the persistence effect after every history
mutation: map each `Message` to its storable record and write the
`JSON.stringify` of the whole array under the `chatMessages` key, replacing
any prior value. -/
def save (msgs : List Message) : Except Unit StorageVal :=
  match throwMap storableMessage msgs with
  | .error e => .error e
  | .ok objs => .ok (.json (.arr objs))

/-- The storage round trip `save` followed by `load`, the composition the
persistence properties are about. -/
def saveThenLoad (msgs : List Message) : Except Unit (List Message) :=
  match save msgs with
  | .error e => .error e
  | .ok v => load (some v)

/-- The digit rendering `Math.floor(Math.random() * 16).toString(16)`: a
value in `[0, 16)` becomes one lowercase hexadecimal character. -/
def hexDigit (n : Fin 16) : Char :=
  "0123456789abcdef".data.getD n.val '0'

/-- Embeds `generateSessionId`: 32 draws of `Math.floor(Math.random() * 16)`
(the draws, each in `[0, 16)`, are the function's input) rendered as
lowercase hex digits and joined. -/
def generateSessionId (draws : Nat → Fin 16) : String :=
  String.mk ((List.range 32).map (fun i => hexDigit (draws i)))

/-- Embeds the session-id part of the mount effect: a truthy stored
`chatSessionId` is adopted unchanged with no write; otherwise a fresh id is
generated, adopted and written back.  Returns the adopted id and the value
written to storage, if any. -/
def initSessionId (stored : Option String) (fresh : String) : String × Option String :=
  match stored with
  | some s => if s = "" then (fresh, some fresh) else (s, none)
  | none => (fresh, some fresh)

/-- How one submission's outbound request settles: a resolved response whose
parsed body is `data`, or a rejected request whose error carries the HTTP
status of the response when there is one (`axios` failures with a response
expose `error.response.status`; pure network failures carry none). -/
inductive RemoteOutcome where
  | reply (data : Json)
  | failure (status : Option Nat)

/-- The outbound `axios.post` call: body `{ message, sessionId }` and an
`Authorization: Bearer <apiKey>` header exactly when an API key is
configured (a falsy key sends no header). -/
structure OutboundRequest where
  message : String
  sessionId : String
  authHeader : Option String
deriving DecidableEq

/-- What one `sendMessage` invocation produces: the final history and the
dispatched request, if any. -/
structure SendResult where
  messages : List Message
  request : Option OutboundRequest

/-- The error text selected in the catch branch:
the 404 literal exactly when the failure is an HTTP 404, otherwise the
generic literal. -/
def errText (status : Option Nat) : String :=
  if status = some 404 then "Error: Webhook not found (404). Check n8n setup."
  else "Error: Could not reach AI"

/-- The optimistic update `setMessages((prev) => [...prev, userMessage])`
performed before the request is dispatched. -/
def optimisticAppend (input : String) (prev : List Message) : List Message :=
  prev ++ [userMsg input]

/-- How the awaited request settles the history.  On a resolved response the
`output` field is read off the parsed body — on a `null` body that property
access throws inside the `try`, and the thrown `TypeError` is not an `axios`
error, so the catch appends the generic error text — and a falsy `output`
falls back to the literal `'AI response received'`.  On a rejected request
the catch appends the formatted text chosen by `errText`.  Every path
returns a history: the catch absorbs all errors, so nothing propagates out
of the controller. -/
def settle (outcome : RemoteOutcome) (msgs : List Message) : List Message :=
  match outcome with
  | .reply data =>
    match jsGetField data "output" with
    | .error _ => msgs ++ [aiMsg (formatResponse (some (.str "Error: Could not reach AI")))]
    | .ok outputV =>
      let arg := if jsFalsy outputV then some (.str "AI response received") else outputV
      msgs ++ [aiMsg (formatResponse arg)]
  | .failure status => msgs ++ [aiMsg (formatResponse (some (.str (errText status))))]

/-- Embeds `sendMessage`: a submission that trims to the empty string returns
at once (no append, no dispatch); otherwise the user message is appended
optimistically, the request `{ message: input, sessionId }` is dispatched
(with a bearer header when an API key is configured), and the settling of
the request appends exactly one assistant message. -/
def sendMessage (input sessionId apiKey : String) (prev : List Message)
    (outcome : RemoteOutcome) : SendResult :=
  if jsTrim input = "" then ⟨prev, none⟩
  else
    ⟨settle outcome (optimisticAppend input prev),
     some ⟨input, sessionId, if apiKey = "" then none else some ("Bearer " ++ apiKey)⟩⟩

/-- The group-membership claim of a resolved identity session:
`payload['cognito:groups']` may be absent (`none`), in which case `|| []`
substitutes the empty list. -/
structure IdToken where
  cognitoGroups : Option (List String)

/-- The token bundle of a session (`session.tokens`, possibly absent). -/
structure AuthTokens where
  idToken : Option IdToken

/-- A resolved identity session (`session?.tokens` chain). -/
structure AuthSession where
  tokens : Option AuthTokens

/-- The `runWithAmplifyServerContext` operation: `fetchAuthSession()` inside a
`try`/`catch` that returns `null` on any resolution failure. -/
def resolveSession : Except Unit AuthSession → Option AuthSession
  | .ok s => some s
  | .error _ => none

/-- The group list read off the session:
`session?.tokens?.idToken?.payload['cognito:groups'] || []`. -/
def sessionGroups : Option AuthSession → List String
  | none => []
  | some s =>
    match s.tokens with
    | none => []
    | some t =>
      match t.idToken with
      | none => []
      | some tok => tok.cognitoGroups.getD []

/-- Embeds `ProtectedPage`: render the denial text unless the group list
contains the literal `'admin'`, in which case render the welcome text. -/
def protectedPage (session : Option AuthSession) : String :=
  if !(sessionGroups session).contains "admin" then "Access Denied: Admins Only"
  else "Welcome, Admin! This is protected content."

example : load (some (.raw "not json")) = .error () := rfl

example : load none = .ok [] := rfl

example :
    (sendMessage "Hello" "s" "" [] (.reply (.obj [("output", .str "Hi there.")]))).messages
      = [userMsg "Hello", aiMsg (.text "Hi there.")] := rfl

example :
    save [userMsg "Hello", aiMsg (.text "Hi there.")]
      = .ok (.json (.arr [.obj [("role", .str "user"), ("content", .str "Hello")],
                          .obj [("role", .str "ai"), ("content", .str "Hi there.")]])) := rfl

/-- Claim C1, counterexample: the stored value `"not json"` is not a
well-formed serialization of a `StoredMessage` sequence, yet the load on
mount raises the parse error instead of yielding the empty history. -/
theorem c1_malformed_payload_raises :
    load (some (.raw "not json")) = .error ()
      ∧ load (some (.raw "not json")) ≠ .ok [] :=
  ⟨rfl, fun h => Except.noConfusion h⟩

/-- Claim C1, amended: the load on widget mount yields the empty history when
nothing is stored under `chatMessages` (or the stored string is empty, which
the truthiness guard treats as absent); any other stored payload that is not
parseable JSON makes the load raise the parse error — the malformed payload
is not discarded silently. -/
theorem c1_load_empty_only_when_absent (s : String) (hs : s ≠ "") :
    load none = .ok []
      ∧ load (some (.raw "")) = .ok []
      ∧ load (some (.raw s)) = .error () := by
  refine ⟨rfl, rfl, ?_⟩
  simp [load, storageFalsy, hs, parseStorage]

/-- Witness for `c1_load_empty_only_when_absent` at the payload `"not json"`. -/
theorem c1_load_empty_only_when_absent_witness :
    ("not json" ≠ "")
      ∧ (load none = .ok []
          ∧ load (some (.raw "")) = .ok []
          ∧ load (some (.raw "not json")) = .error ()) :=
  ⟨by decide, c1_load_empty_only_when_absent "not json" (by decide)⟩

/-- Claim C2, code bug: an assistant reply that formats to two blocks is
stored with its `content` equal to the serialized array of `<p>` elements
taken from `props.children`, not a single plain string — contradicting the
source's own `StoredMessage` interface (`content: string`), on which the
load relies; reloading such a record renders
`"[object Object],[object Object]"`. -/
theorem c2_multiblock_stored_as_element_array :
    formatResponse (some (.str "line one\nline two")) = RElem.paras ["line one", "line two"]
      ∧ save [userMsg "hi", aiMsg (RElem.paras ["line one", "line two"])]
          = .ok (.json (.arr
              [.obj [("role", .str "user"), ("content", .str "hi")],
               .obj [("role", .str "ai"),
                     ("content", .arr [paraJson 0 "line one", paraJson 1 "line two"])]]))
      ∧ Json.isString (.arr [paraJson 0 "line one", paraJson 1 "line two"]) = false
      ∧ saveThenLoad [userMsg "hi", aiMsg (RElem.paras ["line one", "line two"])]
          = .ok [userMsg "hi", aiMsg (RElem.text "[object Object],[object Object]")] :=
  ⟨rfl, rfl, rfl, rfl⟩

/-- Claim C3: on every rejected request the controller appends exactly one
assistant message, whose text (run through the formatter, per the source) is
the 404 literal precisely when the failure carries HTTP status 404 and the
generic literal otherwise; `sendMessage` is total, so no error escapes the
controller. -/
theorem c3_failure_error_texts (input sessionId apiKey : String)
    (prev : List Message) (status : Option Nat) (h : jsTrim input ≠ "") :
    (sendMessage input sessionId apiKey prev (.failure status)).messages
        = prev ++ [userMsg input, aiMsg (formatResponse (some (.str (errText status))))]
      ∧ (errText status = "Error: Webhook not found (404). Check n8n setup."
          ↔ status = some 404)
      ∧ (errText status = "Error: Could not reach AI" ↔ status ≠ some 404) := by
  refine ⟨?_, ?_, ?_⟩
  · simp [sendMessage, h, settle, optimisticAppend]
  · by_cases h4 : status = some 404 <;> simp [errText, h4]
  · by_cases h4 : status = some 404 <;> simp [errText, h4]

/-- Witness for `c3_failure_error_texts`: a 404 failure after submitting
`"hi"` from an empty history. -/
theorem c3_failure_error_texts_witness :
    (jsTrim "hi" ≠ "")
      ∧ ((sendMessage "hi" "" "" [] (.failure (some 404))).messages
            = [] ++ [userMsg "hi", aiMsg (formatResponse (some (.str (errText (some 404)))))]
          ∧ (errText (some 404) = "Error: Webhook not found (404). Check n8n setup."
              ↔ (some 404 : Option Nat) = some 404)
          ∧ (errText (some 404) = "Error: Could not reach AI"
              ↔ (some 404 : Option Nat) ≠ some 404)) :=
  ⟨by decide, c3_failure_error_texts "hi" "" "" [] (some 404) (by decide)⟩

/-- Claim C5, counterexample: on `"Hi there. abc.\t"` (a single non-blank
line) the formatter produces `"abc.."` for the second fragment, because the
source tests `endsWith('.')` on the untrimmed fragment `"abc.\t"`; the
claim's trimmed-fragment rule would produce `"abc."`. -/
theorem c5_trimmed_period_check_counterexample :
    ((jsSplit "Hi there. abc.\t" "\n").filter (fun l => jsTrim l != "")).length ≤ 1
      ∧ formatResponse (some (.str "Hi there. abc.\t")) = RElem.paras ["Hi there.", "abc.."]
      ∧ RElem.paras ["Hi there.", "abc.."]
          ≠ RElem.paras ((jsSplit "Hi there. abc.\t" ". ").map
              (fun f => jsTrim f ++ (if jsEndsWith (jsTrim f) "." then "" else "."))) :=
  ⟨by decide, rfl, by decide⟩

/-- Claim C5, amended: for input with fewer than two non-blank lines the
formatter splits the original text on `". "` and maps every fragment to its
trimmed form followed by a period, appending the period only if the
original, untrimmed fragment did not already end with one; the mapped
fragments are the returned blocks whenever at least two result or the text
exceeds 100 characters. -/
theorem c5_sentence_fragments (s : String)
    (hlines : ((jsSplit s "\n").filter (fun l => jsTrim l != "")).length ≤ 1) :
    (∀ f, codeFragment f = jsTrim f ++ (if jsEndsWith f "." then "" else "."))
      ∧ ((jsSplit s ". ").length > 1 ∨ jsLength s > 100 →
          formatResponse (some (.str s)) = .paras ((jsSplit s ". ").map codeFragment)) := by
  refine ⟨fun f => rfl, fun hcond => ?_⟩
  have hmap : ((jsSplit s ". ").map codeFragment).length = (jsSplit s ". ").length :=
    List.length_map _ _
  simp only [formatResponse, safeTextOf]
  rw [if_neg (by omega), if_pos (by rw [hmap]; exact hcond)]

/-- Witness for `c5_sentence_fragments` at the two-sentence input `"A. B"`. -/
theorem c5_sentence_fragments_witness :
    ((jsSplit "A. B" "\n").filter (fun l => jsTrim l != "")).length ≤ 1
      ∧ ((∀ f, codeFragment f = jsTrim f ++ (if jsEndsWith f "." then "" else "."))
          ∧ ((jsSplit "A. B" ". ").length > 1 ∨ jsLength "A. B" > 100 →
              formatResponse (some (.str "A. B"))
                = .paras ((jsSplit "A. B" ". ").map codeFragment))) :=
  ⟨by decide, c5_sentence_fragments "A. B" (by decide)⟩

/-- Claim C6: every generated session id is exactly 32 characters, each a
lowercase hexadecimal digit, and a mount that finds a generated id in
storage adopts it unchanged and writes nothing — the id is never rotated. -/
theorem c6_session_id_hex32_and_stable (draws : Nat → Fin 16) (fresh : String) :
    jsLength (generateSessionId draws) = 32
      ∧ (∀ c ∈ (generateSessionId draws).data, c ∈ "0123456789abcdef".data)
      ∧ initSessionId (some (generateSessionId draws)) fresh
          = (generateSessionId draws, none) := by
  have hlen : jsLength (generateSessionId draws) = 32 := by
    simp [generateSessionId, jsLength]
  refine ⟨hlen, ?_, ?_⟩
  · intro c hc
    simp only [generateSessionId, List.mem_map] at hc
    obtain ⟨i, _, rfl⟩ := hc
    have hhex : ∀ n : Fin 16, hexDigit n ∈ "0123456789abcdef".data := by decide
    exact hhex (draws i)
  · have hne : generateSessionId draws ≠ "" := by
      intro h
      have h2 := congrArg (fun t => t.data.length) h
      simp [generateSessionId] at h2
    simp [initSessionId, hne]

/-- Claim C8: a submission that trims to the empty string appends nothing,
dispatches nothing and leaves the state exactly as it was. -/
theorem c8_blank_submission_noop (input sessionId apiKey : String)
    (prev : List Message) (outcome : RemoteOutcome) (h : jsTrim input = "") :
    sendMessage input sessionId apiKey prev outcome = ⟨prev, none⟩ := by
  simp [sendMessage, h]

/-- Witness for `c8_blank_submission_noop` at the whitespace input `"  \t"`. -/
theorem c8_blank_submission_noop_witness :
    jsTrim "  \t" = ""
      ∧ sendMessage "  \t" "sid" "key" [userMsg "x"] (.failure none)
          = ⟨[userMsg "x"], none⟩ :=
  ⟨by decide,
   c8_blank_submission_noop "  \t" "sid" "key" [userMsg "x"] (.failure none) (by decide)⟩

/-- Claim C9: the gated page renders the welcome text exactly when the group
list read from the resolved session's token claims contains the literal
`'admin'`; a null session — including a resolution failure, which the
`catch` turns into null — or a group list without `'admin'` renders the
denial text. -/
theorem c9_admin_gate (fetched : Except Unit AuthSession) :
    (protectedPage (resolveSession fetched) = "Welcome, Admin! This is protected content."
        ↔ "admin" ∈ sessionGroups (resolveSession fetched))
      ∧ (protectedPage (resolveSession fetched) = "Access Denied: Admins Only"
        ↔ "admin" ∉ sessionGroups (resolveSession fetched))
      ∧ protectedPage none = "Access Denied: Admins Only"
      ∧ protectedPage (resolveSession (.error ())) = "Access Denied: Admins Only" := by
  have key : ∀ s : Option AuthSession,
      (protectedPage s = "Welcome, Admin! This is protected content."
          ↔ "admin" ∈ sessionGroups s)
        ∧ (protectedPage s = "Access Denied: Admins Only"
          ↔ "admin" ∉ sessionGroups s) := by
    intro s
    by_cases hmem : "admin" ∈ sessionGroups s
    · have hc : (sessionGroups s).contains "admin" = true := by
        simpa [List.contains, List.elem_iff] using hmem
      simp [protectedPage, hc, hmem]
    · have hc : (sessionGroups s).contains "admin" = false := by
        simp only [List.contains]
        exact Bool.eq_false_iff.mpr (fun habs => hmem (List.elem_iff.mp habs))
      simp [protectedPage, hc, hmem]
  refine ⟨(key _).1, (key _).2, ?_, ?_⟩
  · simp [protectedPage, sessionGroups]
  · simp [protectedPage, sessionGroups, resolveSession]

/-- Claim C10: every state update `sendMessage` performs appends exactly one
message and keeps all earlier messages unchanged: the settle step always
appends one assistant message to whatever history it is given, the
optimistic step appends exactly the user message, and in total a submission
leaves the history unchanged (blank input) or extends it by the user
message and one assistant message, in order. -/
theorem c10_append_only (input sessionId apiKey : String) (prev : List Message)
    (outcome : RemoteOutcome) :
    (∀ msgs : List Message, ∃ e : RElem, settle outcome msgs = msgs ++ [aiMsg e])
      ∧ optimisticAppend input prev = prev ++ [userMsg input]
      ∧ ((sendMessage input sessionId apiKey prev outcome).messages = prev
          ∨ ∃ e : RElem, (sendMessage input sessionId apiKey prev outcome).messages
              = prev ++ [userMsg input, aiMsg e]) := by
  have hsettle : ∀ msgs : List Message, ∃ e : RElem,
      settle outcome msgs = msgs ++ [aiMsg e] := by
    intro msgs
    cases outcome with
    | reply data =>
      cases h : jsGetField data "output" with
      | error e =>
        exact ⟨formatResponse (some (.str "Error: Could not reach AI")), by simp [settle, h]⟩
      | ok outputV =>
        exact ⟨formatResponse
            (if jsFalsy outputV then some (.str "AI response received") else outputV),
          by simp [settle, h]⟩
    | failure status =>
      exact ⟨formatResponse (some (.str (errText status))), by simp [settle]⟩
  refine ⟨hsettle, rfl, ?_⟩
  by_cases h : jsTrim input = ""
  · left
    simp [sendMessage, h]
  · right
    obtain ⟨e, he⟩ := hsettle (optimisticAppend input prev)
    simp only [optimisticAppend] at he
    exact ⟨e, by simp [sendMessage, h, optimisticAppend, he]⟩

/-- Claim C7: submitting `"Hello"` from a fresh profile appends the user
message optimistically before any network result; a success response whose
body is `{ output: 'Hi there.' }` leaves the two-message history with the
assistant reply formatted as the single block `"Hi there."`, and persisting
that history stores both entries as plain strings; an absent or empty
`output` field falls back to formatting the literal `"AI response received"`. -/
theorem c7_hello_scenario :
    optimisticAppend "Hello" [] = [userMsg "Hello"]
      ∧ (sendMessage "Hello" "0123456789abcdef0123456789abcdef" "" []
            (.reply (.obj [("output", .str "Hi there.")]))).messages
          = [userMsg "Hello", aiMsg (RElem.text "Hi there.")]
      ∧ blocksOf (RElem.text "Hi there.") = ["Hi there."]
      ∧ (sendMessage "Hello" "0123456789abcdef0123456789abcdef" "" []
            (.reply (.obj [("output", .str "Hi there.")]))).request
          = some ⟨"Hello", "0123456789abcdef0123456789abcdef", none⟩
      ∧ save [userMsg "Hello", aiMsg (RElem.text "Hi there.")]
          = .ok (.json (.arr [.obj [("role", .str "user"), ("content", .str "Hello")],
                              .obj [("role", .str "ai"), ("content", .str "Hi there.")]]))
      ∧ (sendMessage "Hello" "0123456789abcdef0123456789abcdef" "" []
            (.reply (.obj []))).messages
          = [userMsg "Hello", aiMsg (formatResponse (some (.str "AI response received")))]
      ∧ (sendMessage "Hello" "0123456789abcdef0123456789abcdef" "" []
            (.reply (.obj [("output", .str "")]))).messages
          = [userMsg "Hello", aiMsg (RElem.text "AI response received")] :=
  ⟨rfl, rfl, rfl, rfl, rfl, rfl, rfl⟩

/-- A message the storage round trip reproduces exactly: a raw-string content
under a non-assistant role, or an assistant message whose formatted content
is a single untouched text block that the formatter maps to itself. -/
def GoodMsg (m : Message) : Prop :=
  (∃ s, m.content = .raw (some (.str s)) ∧ isAiRole m.role = false)
    ∨ (∃ s, m.content = .elem (.text s) ∧ m.role = some (.str "ai")
        ∧ formatResponse (some (.str s)) = .text s)

/-- A `GoodMsg` is stored as a `{role, content}` record with a plain string
content, and loading that record reproduces the message exactly. -/
theorem storable_load_message (m : Message) (hm : GoodMsg m) :
    ∃ o, storableMessage m = .ok o ∧ loadMessage o = .ok m := by
  obtain ⟨role, content⟩ := m
  have hkr : (("role" : String) == "role") = true := by decide
  have hkc : (("role" : String) == "content") = false := by decide
  obtain ⟨s, hc, hrole⟩ | ⟨s, hc, hrole, hfmt⟩ := hm
  · replace hc : content = MessageContent.raw (some (.str s)) := hc
    replace hrole : isAiRole role = false := hrole
    subst hc
    refine ⟨.obj (roleFields role ++ [("content", .str s)]), ?_, ?_⟩
    · simp [storableMessage, storableContent, contentFields]
    · have hlr : (roleFields role ++ [("content", Json.str s)]).lookup "role" = role := by
        cases role with
        | none => simp [roleFields, List.lookup, hkc]
        | some r => simp [roleFields, List.lookup, hkr]
      have hlc : (roleFields role ++ [("content", Json.str s)]).lookup "content"
          = some (.str s) := by
        cases role with
        | none => simp [roleFields, List.lookup]
        | some r => simp [roleFields, List.lookup, hkc]
      simp [loadMessage, jsGetField, hlr, hlc, hrole]
  · replace hc : content = MessageContent.elem (.text s) := hc
    replace hrole : role = some (.str "ai") := hrole
    subst hc
    subst hrole
    refine ⟨.obj [("role", .str "ai"), ("content", .str s)], rfl, ?_⟩
    simp [loadMessage, jsGetField, List.lookup, hkr, hkc, isAiRole, hfmt]

/-- Element-wise storage and reload of a list of `GoodMsg`s both succeed and
compose to the identity. -/
theorem storable_load_list (msgs : List Message) (h : msgs.Forall GoodMsg) :
    ∃ objs, throwMap storableMessage msgs = .ok objs
      ∧ throwMap loadMessage objs = .ok msgs := by
  induction msgs with
  | nil => exact ⟨[], rfl, rfl⟩
  | cons m rest ih =>
    rw [List.forall_cons] at h
    obtain ⟨hm, hrest⟩ := h
    obtain ⟨o, ho1, ho2⟩ := storable_load_message m hm
    obtain ⟨objs, h1, h2⟩ := ih hrest
    refine ⟨o :: objs, ?_, ?_⟩
    · simp [throwMap, ho1, h1]
    · simp [throwMap, ho2, h2]

/-- Claim C4, amended: for every history of plain-string user messages and
assistant messages whose content is a single untouched text block (one the
formatter maps to itself), saving and reloading yields exactly the same
history — the round trip is the identity on such histories. -/
theorem c4_text_block_roundtrip (hist : List Message) (h : hist.Forall GoodMsg) :
    saveThenLoad hist = .ok hist := by
  obtain ⟨objs, h1, h2⟩ := storable_load_list hist h
  simp [saveThenLoad, save, h1, load, storageFalsy, parseStorage, asArray, h2]

/-- The 101-character content that drives the assistant formatter into its
single-paragraph branch. -/
def c4long : String := String.mk (List.replicate 101 'a')

/-- A stored history with one assistant record of 101 characters and no
sentence break. -/
def c4stored : StorageVal :=
  .json (.arr [.obj [("role", .str "ai"), ("content", .str c4long)]])

/-- Claim C4, counterexample: loading `c4stored` yields a history whose only
assistant message is single-block (one paragraph), yet saving that history
and loading again yields a different history — the paragraph array is stored
in place of a string, and reloading renders `"[object Object]"`. -/
theorem c4_roundtrip_counterexample :
    load (some c4stored)
        = .ok [⟨some (.str "ai"), .elem (.paras [c4long ++ "."])⟩]
      ∧ (blocksOf (RElem.paras [c4long ++ "."])).length = 1
      ∧ saveThenLoad [⟨some (.str "ai"), .elem (.paras [c4long ++ "."])⟩]
          = .ok [⟨some (.str "ai"), .elem (RElem.text "[object Object]")⟩]
      ∧ RElem.paras [c4long ++ "."] ≠ RElem.text "[object Object]" :=
  ⟨rfl, rfl, rfl, by decide⟩

/-- The two-message history of the end-to-end scenario, used to witness the
round-trip theorem. -/
def c4goodHist : List Message := [userMsg "Hello", aiMsg (.text "Hi there.")]

/-- Witness for `c4_text_block_roundtrip` at the scenario history. -/
theorem c4_text_block_roundtrip_witness :
    List.Forall GoodMsg c4goodHist ∧ saveThenLoad c4goodHist = .ok c4goodHist := by
  have hg : List.Forall GoodMsg c4goodHist := by
    constructor
    · exact Or.inl ⟨"Hello", rfl, rfl⟩
    · exact Or.inr ⟨"Hi there.", rfl, rfl, rfl⟩
  exact ⟨hg, c4_text_block_roundtrip c4goodHist hg⟩
